import Mathlib

/-!
Shallow embedding of the `useCamera` React hook (src/src/index.js of
use-camera-react).  The hook's React state cells become fields of
`CameraState`; the asynchronous browser capabilities (getUserMedia,
enumerateDevices, MediaRecorder, canvas/toBlob, URL.createObjectURL,
Date.now) become explicit oracle parameters (`Host`, `CaptureEnv`, ...)
supplied to each operation, so every operation is a pure function from
the oracle outcomes and the pre-state to the post-state (plus its
externally visible effects, such as the constraint descriptors passed to
getUserMedia or the tracks it stopped).  The preview element
(`videoRef.current`) is modelled by a `videoPresent` flag in the oracle
and by the `videoSrcObject` field of the state; binding the preview
(`video.play()`) is modelled as non-failing, matching the external
interface of the spec, in which only acquisition, enumeration, format
probing, recorder creation and still-encoding are fallible.
-/

namespace UseCamera

/-- A media track of an acquired stream: `getSettings().deviceId` may be
absent, and `stop()` flips a stopped flag. -/
structure Track where
  deviceId : Option String
  stopped : Bool
deriving DecidableEq, Repr

/-- An acquired media stream; `tracks` are its video tracks
(`getVideoTracks()`). -/
structure Stream where
  tracks : List Track
deriving DecidableEq, Repr

/-- One entry of `navigator.mediaDevices.enumerateDevices()`. -/
structure Device where
  deviceId : String
  label : String
  kind : String
deriving DecidableEq, Repr

/-- One element of the `capturedImages` sequence (the `captured` object
built in `captureImage`): `id` is `Date.now()`, `url` the object URL of
the encoded blob, `timestamp` the ISO-8601 wall-clock string. -/
structure CapturedImage where
  id : Nat
  url : String
  timestamp : String
deriving DecidableEq, Repr

/-- The controller state: every `useState` cell plus the mutable refs of
the hook.  Chunks are modelled by their byte sizes.  `recorder` models
`mediaRecorderRef.current` together with the local `chunks` array its
handlers close over (`none` when no recorder was ever created). -/
structure CameraState where
  isStreaming : Bool
  isRecording : Bool
  error : Option String
  devices : List Device
  selectedDeviceId : Option String
  recordedChunks : List Nat
  capturedImages : List CapturedImage
  recordedVideoUrl : Option String
  streamRef : Option Stream
  videoSrcObject : Option Stream
  recordedMimeType : Option String
  recorder : Option (List Nat)
deriving DecidableEq, Repr

/-- The state of a freshly mounted hook: all flags false, everything
empty. -/
def initialState : CameraState :=
  { isStreaming := false
    isRecording := false
    error := none
    devices := []
    selectedDeviceId := none
    recordedChunks := []
    capturedImages := []
    recordedVideoUrl := none
    streamRef := none
    videoSrcObject := none
    recordedMimeType := none
    recorder := none }

/-- Whether `pat` occurs as a contiguous sublist of `l`. -/
def listContains (pat : List Char) : List Char → Bool
  | [] => pat.isPrefixOf []
  | c :: t => pat.isPrefixOf (c :: t) || listContains pat t

/-- JS `label.toLowerCase().includes(keyword)`, on character lists. -/
def strContains (label keyword : String) : Bool :=
  listContains keyword.toList label.toList

/-- JS `label.toLowerCase()`, character by character. -/
def lowerString (s : String) : String := String.mk (s.data.map Char.toLower)

/-- The constraint descriptor passed to `getUserMedia`: either the
detailed video constraints built by `getConstraints`, or the bare
`video: true` of the fallback retry. -/
inductive VideoConstraint
  | any
  | detailed (deviceId : Option String)
      (widthIdeal widthMax heightIdeal heightMax frameRateIdeal frameRateMax : Nat)
deriving DecidableEq, Repr

structure Constraints where
  video : VideoConstraint
  audio : Bool
deriving DecidableEq, Repr

/-- Model of `getConstraints(deviceId)`: 1280x720 ideal (1920x1080 max) at 30fps
(60 max), tightened to 720x480 (1280x720 max) at 24fps (30 max) when the
user agent matches the mobile keyword set; audio always requested. -/
def getConstraints (isMobile : Bool) (deviceId : Option String) : Constraints :=
  if isMobile then
    { video := .detailed deviceId 720 1280 480 720 24 30, audio := true }
  else
    { video := .detailed deviceId 1280 1920 720 1080 30 60, audio := true }

/-- The minimal constraints of the overconstrained fallback:
`{ video: true, audio: true }`. -/
def basicConstraints : Constraints := { video := .any, audio := true }

/-- The error classification of a failed `getUserMedia` call
(`err.name`), with the message for the default branch. -/
inductive GumError
  | notAllowed
  | notFound
  | notReadable
  | overconstrained
  | other (message : String)
deriving DecidableEq, Repr

/-- Outcomes of the host capabilities one `startCamera` call consults:
the streaming capability as a function of the constraints, the
enumeration capability, the mobile user-agent test, and whether the
preview element is mounted. -/
structure Host where
  gum : Constraints → Except GumError Stream
  enum : Except String (List Device)
  isMobile : Bool
  videoPresent : Bool

/-- Model of `devices.filter(d => d.kind === 'videoinput')`. -/
def filterVideoInput (ds : List Device) : List Device :=
  ds.filter (fun d => d.kind == "videoinput")

/-- Model of `getDevices()`: on success replace the device list with the
video-input entries and, when no device is selected and the list is
non-empty, select the first; on enumeration failure set the error
message.  Returns the list the call returns (empty on failure). -/
def getDevices (enum : Except String (List Device)) (s : CameraState) :
    CameraState × List Device :=
  match enum with
  | .ok ds =>
      let videoDevices := filterVideoInput ds
      let s1 := { s with devices := videoDevices }
      let s2 :=
        match s1.selectedDeviceId, videoDevices with
        | none, d :: _ => { s1 with selectedDeviceId := some d.deviceId }
        | _, _ => s1
      (s2, videoDevices)
  | .error msg =>
      ({ s with error := some ("Failed to get camera devices: " ++ msg) }, [])

/-- Model of `track.stop()`. -/
def stopTrack (t : Track) : Track := { t with stopped := true }

/-- Model of `stream.getTracks().forEach(t => t.stop())`. -/
def stopAllTracks (st : Stream) : Stream := { tracks := st.tracks.map stopTrack }

/-- Binding the acquired stream to the preview element (`srcObject`,
playsinline attributes, muted, play) when it is mounted. -/
def bindPreview (videoPresent : Bool) (st : Stream) (s : CameraState) : CameraState :=
  if videoPresent then { s with videoSrcObject := some st } else s

/-- Model of `stream.getVideoTracks()[0].getSettings().deviceId`: adopt the
actual device id of the live track when the stream has a video track
that reports one. -/
def setActualDevice (st : Stream) (s : CameraState) : CameraState :=
  match st.tracks with
  | t :: _ =>
      match t.deviceId with
      | some id => { s with selectedDeviceId := some id }
      | none => s
  | [] => s

/-- The shared tail of both successful acquisition paths: store the
stream, bind the preview, refresh the device list, adopt the live
track's device id, mark streaming. -/
def adoptStream (h : Host) (stream : Stream) (s : CameraState) : CameraState :=
  let s1 := { s with streamRef := some stream }
  let s2 := bindPreview h.videoPresent stream s1
  let s3 := (getDevices h.enum s2).1
  let s4 := setActualDevice stream s3
  { s4 with isStreaming := true }

/-- The user-facing message of each non-overconstrained failure branch. -/
def failureMessage (e : GumError) : String :=
  "Failed to access camera: " ++
    match e with
    | .notAllowed => "Camera access denied. Please allow camera permissions."
    | .notFound => "No camera found on this device."
    | .notReadable => "Camera is already in use by another application."
    | .overconstrained => "Camera constraints not supported. Trying with basic settings..."
    | .other m => m

/-- The entry of `startCamera`: stop the tracks of the current stream,
the ref keeps pointing at it. -/
def teardownTracks (s : CameraState) : CameraState :=
  match s.streamRef with
  | some st => { s with streamRef := some (stopAllTracks st) }
  | none => s

/-- Model of `startCamera(deviceId)`: clear the error, stop the tracks of any
current stream (the ref keeps pointing at it), build constraints, call
`getUserMedia`; on success adopt the stream; on `OverconstrainedError`
retry exactly once with `basicConstraints` and either adopt the fallback
stream or record the combined message; on any other failure record the
classified message.  The second component is the list of constraint
descriptors passed to the streaming capability, in order. -/
def startCamera (h : Host) (deviceId : Option String) (s : CameraState) :
    CameraState × List Constraints :=
  let s0 := teardownTracks { s with error := none }
  let cs := getConstraints h.isMobile deviceId
  match h.gum cs with
  | .ok stream => (adoptStream h stream s0, [cs])
  | .error e =>
    match e with
    | .overconstrained =>
        match h.gum basicConstraints with
        | .ok basicStream => (adoptStream h basicStream s0, [cs, basicConstraints])
        | .error _ =>
            ({ s0 with
                error := some (failureMessage .overconstrained ++ " Basic settings also failed.") },
             [cs, basicConstraints])
    | _ => ({ s0 with error := some (failureMessage e) }, [cs])

/-- Model of `startCamera()` with no argument: defaults the requested device to
the currently selected one. -/
def startCameraDefault (h : Host) (s : CameraState) : CameraState × List Constraints :=
  startCamera h s.selectedDeviceId s

/-- Model of `stopCamera()`: stop every track of the current stream and drop the
ref, detach the preview when the element is mounted, clear both flags.
The second component lists the tracks it stopped. -/
def stopCamera (videoPresent : Bool) (s : CameraState) : CameraState × List Track :=
  let stoppedTracks :=
    match s.streamRef with
    | some st => st.tracks.map stopTrack
    | none => []
  let s1 := { s with streamRef := none }
  let s2 := if videoPresent then { s1 with videoSrcObject := none } else s1
  ({ s2 with isStreaming := false, isRecording := false }, stoppedTracks)

/-- The ordered MIME-type preference list probed by `startRecording`. -/
def mimeTypes : List String :=
  ["video/mp4",
   "video/mp4; codecs=\x22avc1.42E01E, mp4a.40.2\x22",
   "video/webm;codecs=vp9",
   "video/webm;codecs=vp8",
   "video/webm; codecs=\x22vp8, opus\x22",
   "video/webm"]

/-- The message set when no preference-list entry is supported. -/
def unsupportedRecordingMessage : String :=
  "Your browser doesn\x27t support video recording. Please try a different browser."

/-- Model of `startRecording()`: no-op when there is no stream ref or a recording
is in progress.  Otherwise clear the chunk state, probe the preference
list with `MediaRecorder.isTypeSupported` (the host's `supports`); when
none is supported set the unsupported message and stop; when one is
found store it as the negotiated format, construct the recorder
(`recCreate` is the outcome of `new MediaRecorder`, which may throw),
and on success install the recorder with a fresh chunk buffer, mark
recording, clear the error. -/
def startRecording (supports : String → Bool) (recCreate : Except String Unit)
    (s : CameraState) : CameraState :=
  if s.streamRef.isNone || s.isRecording then s
  else
    let s0 := { s with recordedChunks := [] }
    match mimeTypes.find? supports with
    | none => { s0 with error := some unsupportedRecordingMessage }
    | some mt =>
        let s1 := { s0 with recordedMimeType := some mt }
        match recCreate with
        | .ok _ => { s1 with recorder := some [], isRecording := true, error := none }
        | .error m => { s1 with error := some ("Failed to start recording: " ++ m) }

/-- Model of `stopRecording()`: when a recorder exists and a recording is in
progress, signal the recorder to finalize and optimistically clear the
recording flag; otherwise do nothing. -/
def stopRecording (s : CameraState) : CameraState :=
  if s.recorder.isSome && s.isRecording then { s with isRecording := false } else s

/-- The `ondataavailable` handler: append the emitted chunk to the
recorder's buffer only when its size is positive. -/
def handleDataAvailable (size : Nat) (s : CameraState) : CameraState :=
  match s.recorder with
  | some buf => if size > 0 then { s with recorder := some (buf ++ [size]) } else s
  | none => s

/-- The finalized blob the `onstop` handler builds from the collected
chunks and the negotiated MIME type. -/
structure RecBlob where
  chunks : List Nat
  mimeType : String
deriving DecidableEq, Repr

/-- The `onstop` handler: publish the collected chunk buffer as
`recordedChunks`; when at least one chunk was collected, build the blob
with the negotiated MIME type (falling back to video/mp4) and store a
fresh object URL (`url` is the handle the host derives).  The second
component is the blob that was built, when one was. -/
def handleStop (url : String) (s : CameraState) : CameraState × Option RecBlob :=
  match s.recorder with
  | some chunks =>
      let s1 := { s with recordedChunks := chunks }
      if chunks.length > 0 then
        let blob : RecBlob := { chunks := chunks, mimeType := s.recordedMimeType.getD "video/mp4" }
        ({ s1 with recordedVideoUrl := some url }, some blob)
      else (s1, none)
  | none => (s, none)

/-- Outcomes of the host capabilities one `captureImage` call consults:
whether the preview element is mounted, the outcome of the canvas work
(`none` when drawing did not throw), whether `toBlob` produced a blob,
the derived object URL, `Date.now()`, and the ISO timestamp. -/
structure CaptureEnv where
  videoPresent : Bool
  canvasError : Option String
  blobOk : Bool
  url : String
  nowMs : Nat
  timestampIso : String

/-- The outcome of one `captureImage` call: the post-state, the
settled promise, and the object URLs derived during the call. -/
structure CaptureOutcome where
  state : CameraState
  result : Except String CapturedImage
  urlsCreated : List String

/-- Model of `captureImage()`: reject untouched when the preview element is
missing or the hook is not streaming; reject with the capture-failed
message when the canvas work throws; reject untouched when `toBlob`
yields no blob; otherwise derive the object URL, build the entry with
`Date.now()` as id, append it to the captured-images sequence, clear the
error, and resolve with the entry. -/
def captureImage (env : CaptureEnv) (s : CameraState) : CaptureOutcome :=
  if !env.videoPresent || !s.isStreaming then
    { state := s, result := .error "Video not ready or streaming stopped", urlsCreated := [] }
  else
    match env.canvasError with
    | some m =>
        { state := { s with error := some ("Failed to capture image: " ++ m) }
          result := .error m
          urlsCreated := [] }
    | none =>
        if !env.blobOk then
          { state := s, result := .error "Failed to capture image blob", urlsCreated := [] }
        else
          let captured : CapturedImage :=
            { id := env.nowMs, url := env.url, timestamp := env.timestampIso }
          { state := { s with
              capturedImages := s.capturedImages ++ [captured]
              error := none }
            result := .ok captured
            urlsCreated := [env.url] }

/-- Model of `clearRecordedVideo()`: revoke and drop the recorded-video URL when
one exists, empty the chunk sequence, forget the negotiated format. -/
def clearRecordedVideo (s : CameraState) : CameraState :=
  let s1 :=
    match s.recordedVideoUrl with
    | some _ => { s with recordedVideoUrl := none }
    | none => s
  { s1 with recordedChunks := [], recordedMimeType := none }

/-- Model of `switchCamera(deviceId)`: start the camera on that device unless it
is already the selected one. -/
def switchCamera (h : Host) (deviceId : String) (s : CameraState) : CameraState :=
  if some deviceId ≠ s.selectedDeviceId then (startCamera h (some deviceId) s).1 else s

def frontCameraKeywords : List String := ["front", "user", "facing user", "selfie"]

def backCameraKeywords : List String := ["back", "rear", "environment", "facing environment"]

/-- Model of `keywords.some(k => label.includes(k))` on an already lower-cased
label. -/
def hasKeyword (keywords : List String) (label : String) : Bool :=
  keywords.any (fun k => strContains label k)

/-- Model of `devices.findIndex(d => d.deviceId === selectedDeviceId)`, `none`
standing for -1. -/
def findSelectedIdx (devices : List Device) (sel : Option String) : Option Nat :=
  devices.findIdx? (fun d => some d.deviceId == sel)

/-- Model of `devices[(currentIndex + 1) % devices.length]` with findIndex's -1
mapping to index 0. -/
def nextIndex (idx : Option Nat) (len : Nat) : Nat :=
  match idx with
  | none => 0
  | some i => (i + 1) % len

/-- The cyclic fallback of `toggleCamera`: the next device in list order
(wrap-around), chosen only when it differs from the current selection. -/
def cyclicTarget (s : CameraState) : Option String :=
  let idx := findSelectedIdx s.devices s.selectedDeviceId
  match s.devices.get? (nextIndex idx s.devices.length) with
  | some d => if some d.deviceId ≠ s.selectedDeviceId then some d.deviceId else none
  | none => none

/-- The mobile front/back swap of `toggleCamera`: classify the current
device's lower-cased label; when it is front-classified pick the first
back-classified device, when back-classified the first front-classified
one; the pick counts only when it differs from the current selection. -/
def mobileTarget (s : CameraState) : Option String :=
  let idx := findSelectedIdx s.devices s.selectedDeviceId
  let currentLabel :=
    match idx with
    | some i => ((s.devices.get? i).map (fun (d : Device) => d.label)).getD ""
    | none => ""
  let currentLabel := lowerString currentLabel
  let isCurrentFront := hasKeyword frontCameraKeywords currentLabel
  let isCurrentBack := hasKeyword backCameraKeywords currentLabel
  let targetDevice : Option Device :=
    if isCurrentFront then
      s.devices.find? (fun d => hasKeyword backCameraKeywords (lowerString d.label))
    else if isCurrentBack then
      s.devices.find? (fun d => hasKeyword frontCameraKeywords (lowerString d.label))
    else none
  match targetDevice with
  | some d => if some d.deviceId ≠ s.selectedDeviceId then some d.deviceId else none
  | none => none

/-- The device `toggleCamera()` decides to start: no-op with at most one
known device; on mobile try the semantic front/back swap first; fall
back to cyclic order. -/
def toggleTarget (isMobile : Bool) (s : CameraState) : Option String :=
  if s.devices.length ≤ 1 then none
  else
    match (if isMobile then mobileTarget s else none) with
    | some id => some id
    | none => cyclicTarget s

/-- Model of `toggleCamera()`: start the camera on the decided device, if any.
The second component is the device id it switched to. -/
def toggleCamera (h : Host) (s : CameraState) : CameraState × Option String :=
  match toggleTarget h.isMobile s with
  | some id => ((startCamera h (some id) s).1, some id)
  | none => (s, none)

/-- Model of `getCurrentCameraType()`: 'unknown' without a selection or devices,
or when the selected device is absent or has an empty label; otherwise
classify the lower-cased label, front keywords first. -/
def getCurrentCameraType (s : CameraState) : String :=
  match s.selectedDeviceId with
  | none => "unknown"
  | some sel =>
      if s.devices.length == 0 then "unknown"
      else
        match s.devices.find? (fun d => d.deviceId == sel) with
        | none => "unknown"
        | some d =>
            if d.label == "" then "unknown"
            else
              let label := lowerString d.label
              if hasKeyword frontCameraKeywords label then "front"
              else if hasKeyword backCameraKeywords label then "back"
              else "unknown"

/-- One invocation of a hook operation, bundled with the outcomes of
the host capabilities it consults. -/
inductive Op
  | opStartCamera (h : Host) (deviceId : Option String)
  | opStartCameraDefault (h : Host)
  | opStopCamera (videoPresent : Bool)
  | opStartRecording (supports : String → Bool) (recCreate : Except String Unit)
  | opStopRecording
  | opCaptureImage (env : CaptureEnv)
  | opSwitchCamera (h : Host) (deviceId : String)
  | opToggleCamera (h : Host)
  | opGetDevices (enum : Except String (List Device))
  | opDataAvailable (size : Nat)
  | opRecorderStop (url : String)
  | opClearRecordedVideo

/-- The state transition of one operation. -/
def applyOp (op : Op) (s : CameraState) : CameraState :=
  match op with
  | .opStartCamera h deviceId => (startCamera h deviceId s).1
  | .opStartCameraDefault h => (startCameraDefault h s).1
  | .opStopCamera vp => (stopCamera vp s).1
  | .opStartRecording supports recCreate => startRecording supports recCreate s
  | .opStopRecording => stopRecording s
  | .opCaptureImage env => (captureImage env s).state
  | .opSwitchCamera h deviceId => switchCamera h deviceId s
  | .opToggleCamera h => (toggleCamera h s).1
  | .opGetDevices enum => (getDevices enum s).1
  | .opDataAvailable size => handleDataAvailable size s
  | .opRecorderStop url => handleStop url s |>.1
  | .opClearRecordedVideo => clearRecordedVideo s

/-- The state after running a sequence of operations from a given
state. -/
def runFrom (s : CameraState) : List Op → CameraState
  | [] => s
  | op :: ops => runFrom (applyOp op s) ops

/-- The state after running a sequence of operations on a freshly
mounted hook. -/
def run (ops : List Op) : CameraState := runFrom initialState ops

/-- The device id the first video track of a stream reports
(`getVideoTracks()[0].getSettings().deviceId`), when there is one. -/
def streamTrackId (st : Stream) : Option String :=
  match st.tracks with
  | t :: _ => t.deviceId
  | [] => none

/-- The spec's membership invariant: once the device list is non-empty,
the selected device id is the id of one of its entries. -/
def DeviceInv (s : CameraState) : Prop :=
  s.devices ≠ [] → ∃ d ∈ s.devices, some d.deviceId = s.selectedDeviceId

/-- Host consistency of one enumeration result against a selection:
either nothing is selected, or the filtered list is empty, or the
selected id still appears in it. -/
def EnumOk (ds : List Device) (sel : Option String) : Prop :=
  sel = none ∨ filterVideoInput ds = [] ∨
    ∃ d ∈ filterVideoInput ds, some d.deviceId = sel

/-- Host consistency of one stream adoption against the pre-state's
device list and selection: whenever the live track reports a device id,
that id appears in the device list the adoption ends up with (the
freshly enumerated one, or the retained one when enumeration fails)
unless that list is empty; when the track reports no id, any successful
enumeration must be consistent with the prior selection. -/
def AdoptOk (h : Host) (st : Stream) (devs : List Device) (sel : Option String) : Prop :=
  match streamTrackId st with
  | some tid =>
      (∀ ds, h.enum = .ok ds →
          filterVideoInput ds = [] ∨ ∃ d ∈ filterVideoInput ds, d.deviceId = tid) ∧
      (∀ e, h.enum = .error e → devs = [] ∨ ∃ d ∈ devs, d.deviceId = tid)
  | none => ∀ ds, h.enum = .ok ds → EnumOk ds sel

/-- Host consistency of a whole `startCamera` call: whichever acquisition
succeeds (first attempt or overconstrained fallback) must satisfy
`AdoptOk`. -/
def HostAdoptOk (h : Host) (did : Option String) (devs : List Device)
    (sel : Option String) : Prop :=
  (∀ st, h.gum (getConstraints h.isMobile did) = .ok st → AdoptOk h st devs sel) ∧
  (∀ bs, h.gum (getConstraints h.isMobile did) = .error .overconstrained →
      h.gum basicConstraints = .ok bs → AdoptOk h bs devs sel)

/-- The host-consistency side condition of each operation, for the
device-membership invariant. -/
def OpDevOk : Op → CameraState → Prop
  | .opStartCamera h did, s => HostAdoptOk h did s.devices s.selectedDeviceId
  | .opStartCameraDefault h, s =>
      HostAdoptOk h s.selectedDeviceId s.devices s.selectedDeviceId
  | .opSwitchCamera h did, s => HostAdoptOk h (some did) s.devices s.selectedDeviceId
  | .opToggleCamera h, s =>
      ∀ id, toggleTarget h.isMobile s = some id →
        HostAdoptOk h (some id) s.devices s.selectedDeviceId
  | .opGetDevices (.ok ds), s => EnumOk ds s.selectedDeviceId
  | _, _ => True

/-! ### The streaming/recording invariant -/

/-- The inductive invariant behind the spec's `isRecording` implies
`isStreaming`: the guard of `startRecording` checks the stream ref, so
the ref being populated must itself imply the streaming flag. -/
def StreamInv (s : CameraState) : Prop :=
  (s.isRecording = true → s.isStreaming = true) ∧
  (s.streamRef.isSome = true → s.isStreaming = true)

/-- A track, stream and streaming state used as concrete fixtures. -/
def exTrack : Track := { deviceId := some "A", stopped := false }

def exStream : Stream := { tracks := [exTrack] }

def exStreamingState : CameraState :=
  { initialState with streamRef := some exStream, isStreaming := true }

/-- A capture environment in which every host capability succeeds, at
clock reading 7. -/
def exCapEnv : CaptureEnv :=
  { videoPresent := true
    canvasError := none
    blobOk := true
    url := "u"
    nowMs := 7
    timestampIso := "t" }

/-- A finalizing state with the empty buffer and a previous video URL,
and one with a non-empty buffer. -/
def exEmptyBufferState : CameraState :=
  { initialState with recorder := some [], recordedVideoUrl := some "old" }

def exFullBufferState : CameraState := { initialState with recorder := some [3] }

/-- A host whose detailed acquisition is overconstrained but whose
minimal-constraints fallback succeeds, and one whose fallback also
fails. -/
def exHostRetryOk : Host :=
  { gum := fun c => if c == basicConstraints then .ok exStream else .error .overconstrained
    enum := .ok [{ deviceId := "A", label := "front camera", kind := "videoinput" }]
    isMobile := false
    videoPresent := true }

def exHostRetryFail : Host :=
  { gum := fun _ => .error .overconstrained
    enum := .ok []
    isMobile := false
    videoPresent := true }

/-- A video-input device, a host on which every capability succeeds,
and format probes that accept everything / nothing. -/
def exDeviceA : Device := { deviceId := "A", label := "front camera", kind := "videoinput" }

def exHostGood : Host :=
  { gum := fun _ => .ok exStream
    enum := .ok [exDeviceA]
    isMobile := false
    videoPresent := true }

def supportsAll : String → Bool := fun _ => true

def noSupport : String → Bool := fun _ => false

/-- A reachable state holding one finished recording (chunk sequence
`[5]`, a recorded-video URL) with the stream still live. -/
def exRecordedState : CameraState :=
  run [.opStartCamera exHostGood none, .opStartRecording supportsAll (.ok ()),
       .opDataAvailable 5, .opStopRecording, .opRecorderStop "u"]

/-- The state after one successful `startCamera` run; its
captured-images sequence is empty. -/
def exRunStreaming : CameraState := run [.opStartCamera exHostGood none]

/-- The state after two `captureImage` calls that both happen at clock
reading 7 (the same wall-clock millisecond). -/
def exCapturedTwice : CameraState :=
  run [.opStartCamera exHostGood none, .opCaptureImage exCapEnv, .opCaptureImage exCapEnv]

/-- A back-labelled device, the two-device front/back fixture of the
spec's example, and a two-device fixture with empty labels. -/
def exDeviceB : Device := { deviceId := "B", label := "back camera", kind := "videoinput" }

def exToggleState : CameraState :=
  { initialState with devices := [exDeviceA, exDeviceB], selectedDeviceId := some "A" }

def exDeviceC : Device := { deviceId := "C", label := "", kind := "videoinput" }

def exDeviceD : Device := { deviceId := "D", label := "", kind := "videoinput" }

def exUnlabeledState : CameraState :=
  { initialState with devices := [exDeviceC, exDeviceD], selectedDeviceId := some "C" }

def exHostMobile : Host :=
  { gum := fun _ => .ok exStream
    enum := .ok [exDeviceA]
    isMobile := true
    videoPresent := true }

/-- The single-device state of the spec's classification example, whose
selected device is labelled "Integrated Webcam". -/
def exDeviceW : Device :=
  { deviceId := "W", label := "Integrated Webcam", kind := "videoinput" }

def exWebcamState : CameraState :=
  { initialState with devices := [exDeviceW], selectedDeviceId := some "W" }

/-! ### Structural lemmas -/

lemma getDevices_fields (e : Except String (List Device)) (s : CameraState) :
    ((getDevices e s).1).isStreaming = s.isStreaming ∧
    ((getDevices e s).1).isRecording = s.isRecording ∧
    ((getDevices e s).1).streamRef = s.streamRef ∧
    ((getDevices e s).1).recorder = s.recorder := by
  cases e with
  | ok ds =>
      simp only [getDevices]
      split <;> simp
  | error m => simp [getDevices]

lemma setActualDevice_fields (st : Stream) (s : CameraState) :
    (setActualDevice st s).isStreaming = s.isStreaming ∧
    (setActualDevice st s).isRecording = s.isRecording ∧
    (setActualDevice st s).streamRef = s.streamRef ∧
    (setActualDevice st s).recorder = s.recorder ∧
    (setActualDevice st s).devices = s.devices := by
  unfold setActualDevice
  split <;> first | simp | (split <;> simp)

lemma bindPreview_fields (vp : Bool) (st : Stream) (s : CameraState) :
    (bindPreview vp st s).isStreaming = s.isStreaming ∧
    (bindPreview vp st s).isRecording = s.isRecording ∧
    (bindPreview vp st s).streamRef = s.streamRef ∧
    (bindPreview vp st s).recorder = s.recorder ∧
    (bindPreview vp st s).devices = s.devices ∧
    (bindPreview vp st s).selectedDeviceId = s.selectedDeviceId := by
  unfold bindPreview
  split <;> simp

lemma adoptStream_isStreaming (h : Host) (st : Stream) (s : CameraState) :
    (adoptStream h st s).isStreaming = true := rfl

lemma adoptStream_isRecording (h : Host) (st : Stream) (s : CameraState) :
    (adoptStream h st s).isRecording = s.isRecording := by
  unfold adoptStream
  rw [show ∀ t : CameraState, ({ t with isStreaming := true } : CameraState).isRecording
        = t.isRecording from fun _ => rfl]
  rw [(setActualDevice_fields st _).2.1, (getDevices_fields h.enum _).2.1,
    (bindPreview_fields h.videoPresent st _).2.1]

lemma streamInv_adopt (h : Host) (st : Stream) (s : CameraState) :
    StreamInv (adoptStream h st s) :=
  ⟨fun _ => adoptStream_isStreaming h st s, fun _ => adoptStream_isStreaming h st s⟩

lemma teardownTracks_fields (s : CameraState) :
    (teardownTracks s).isStreaming = s.isStreaming ∧
    (teardownTracks s).isRecording = s.isRecording ∧
    (teardownTracks s).streamRef.isSome = s.streamRef.isSome ∧
    (teardownTracks s).devices = s.devices ∧
    (teardownTracks s).selectedDeviceId = s.selectedDeviceId := by
  unfold teardownTracks
  split <;> simp_all

lemma startCamera_case_ok (h : Host) (did : Option String) (s : CameraState)
    (stream : Stream)
    (hg : h.gum (getConstraints h.isMobile did) = .ok stream) :
    startCamera h did s =
      (adoptStream h stream (teardownTracks { s with error := none }),
       [getConstraints h.isMobile did]) := by
  simp only [startCamera, hg]

lemma startCamera_case_err (h : Host) (did : Option String) (s : CameraState)
    (e : GumError)
    (hg : h.gum (getConstraints h.isMobile did) = .error e)
    (hne : e ≠ .overconstrained) :
    startCamera h did s =
      ({ teardownTracks { s with error := none } with error := some (failureMessage e) },
       [getConstraints h.isMobile did]) := by
  simp only [startCamera, hg]

lemma startCamera_case_retry_ok (h : Host) (did : Option String) (s : CameraState)
    (bs : Stream)
    (hg : h.gum (getConstraints h.isMobile did) = .error .overconstrained)
    (hb : h.gum basicConstraints = .ok bs) :
    startCamera h did s =
      (adoptStream h bs (teardownTracks { s with error := none }),
       [getConstraints h.isMobile did, basicConstraints]) := by
  simp only [startCamera, hg, hb]

lemma startCamera_case_retry_err (h : Host) (did : Option String) (s : CameraState)
    (e2 : GumError)
    (hg : h.gum (getConstraints h.isMobile did) = .error .overconstrained)
    (hb : h.gum basicConstraints = .error e2) :
    startCamera h did s =
      ({ teardownTracks { s with error := none } with
          error := some (failureMessage .overconstrained ++ " Basic settings also failed.") },
       [getConstraints h.isMobile did, basicConstraints]) := by
  simp only [startCamera, hg, hb]

lemma teardownTracks_inv (s : CameraState) (hinv : StreamInv s) :
    StreamInv (teardownTracks s) := by
  obtain ⟨h1, h2, h3, -⟩ := teardownTracks_fields s
  exact ⟨fun hr => by rw [h1]; exact hinv.1 (by rw [← h2]; exact hr),
         fun hr => by rw [h1]; exact hinv.2 (by rw [← h3]; exact hr)⟩

lemma streamInv_errorUpdate (s : CameraState) (msg : String)
    (hinv : StreamInv s) : StreamInv { s with error := some msg } :=
  ⟨hinv.1, hinv.2⟩

lemma startCamera_inv (h : Host) (did : Option String) (s : CameraState)
    (hinv : StreamInv s) : StreamInv (startCamera h did s).1 := by
  have hbase : StreamInv (teardownTracks { s with error := none }) :=
    teardownTracks_inv _ ⟨hinv.1, hinv.2⟩
  cases hg : h.gum (getConstraints h.isMobile did) with
  | ok stream => rw [startCamera_case_ok h did s stream hg]; exact streamInv_adopt ..
  | error e =>
      by_cases hoc : e = .overconstrained
      · subst hoc
        cases hb : h.gum basicConstraints with
        | ok bs => rw [startCamera_case_retry_ok h did s bs hg hb]; exact streamInv_adopt ..
        | error e2 =>
            rw [startCamera_case_retry_err h did s e2 hg hb]
            exact streamInv_errorUpdate _ _ hbase
      · rw [startCamera_case_err h did s e hg hoc]
        exact streamInv_errorUpdate _ _ hbase

lemma stopCamera_fields (vp : Bool) (s : CameraState) :
    (stopCamera vp s).1.isStreaming = false ∧
    (stopCamera vp s).1.isRecording = false ∧
    (stopCamera vp s).1.streamRef = none := by
  unfold stopCamera
  cases vp <;> simp

lemma stopCamera_inv (vp : Bool) (s : CameraState) : StreamInv ((stopCamera vp s).1) := by
  obtain ⟨h1, h2, h3⟩ := stopCamera_fields vp s
  refine ⟨fun hr => ?_, fun hr => ?_⟩
  · rw [h2] at hr; exact absurd hr (by simp)
  · rw [h3] at hr; exact absurd hr (by simp)

lemma startRecording_inv (supports : String → Bool) (recCreate : Except String Unit)
    (s : CameraState) (hinv : StreamInv s) :
    StreamInv (startRecording supports recCreate s) := by
  unfold startRecording
  split
  · exact hinv
  · next hguard =>
      have hsome : s.streamRef.isSome = true := by
        cases hss : s.streamRef.isSome with
        | true => rfl
        | false => exact absurd (by simp [Option.isNone_iff_eq_none] at hss ⊢; simp [hss]) hguard
      have hstr : s.isStreaming = true := hinv.2 hsome
      split
      · exact ⟨fun hr => hstr, fun hr => hstr⟩
      · split
        · exact ⟨fun _ => hstr, fun _ => hstr⟩
        · exact ⟨fun _ => hstr, fun _ => hstr⟩

lemma stopRecording_inv (s : CameraState) (hinv : StreamInv s) :
    StreamInv (stopRecording s) := by
  unfold stopRecording
  split
  · exact ⟨fun hr => by simp at hr, fun hr => hinv.2 hr⟩
  · exact hinv

lemma captureImage_inv (env : CaptureEnv) (s : CameraState) (hinv : StreamInv s) :
    StreamInv ((captureImage env s).state) := by
  unfold captureImage
  split
  · exact hinv
  · split
    · exact hinv
    · split
      · exact hinv
      · exact hinv

lemma getDevices_inv (e : Except String (List Device)) (s : CameraState)
    (hinv : StreamInv s) : StreamInv ((getDevices e s).1) := by
  obtain ⟨h1, h2, h3, -⟩ := getDevices_fields e s
  exact ⟨fun hr => by rw [h1]; exact hinv.1 (h2 ▸ hr),
         fun hr => by rw [h1]; exact hinv.2 (h3 ▸ hr)⟩

lemma handleDataAvailable_inv (n : Nat) (s : CameraState) (hinv : StreamInv s) :
    StreamInv (handleDataAvailable n s) := by
  unfold handleDataAvailable
  split
  · split
    · exact ⟨hinv.1, hinv.2⟩
    · exact hinv
  · exact hinv

lemma handleStop_inv (url : String) (s : CameraState) (hinv : StreamInv s) :
    StreamInv ((handleStop url s).1) := by
  unfold handleStop
  split
  · split
    · exact ⟨hinv.1, hinv.2⟩
    · exact ⟨hinv.1, hinv.2⟩
  · exact hinv

lemma clearRecordedVideo_inv (s : CameraState) (hinv : StreamInv s) :
    StreamInv (clearRecordedVideo s) := by
  unfold clearRecordedVideo
  split <;> exact ⟨hinv.1, hinv.2⟩

lemma applyOp_inv (op : Op) (s : CameraState) (hinv : StreamInv s) :
    StreamInv (applyOp op s) := by
  cases op with
  | opStartCamera h did => exact startCamera_inv h did s hinv
  | opStartCameraDefault h => exact startCamera_inv h s.selectedDeviceId s hinv
  | opStopCamera vp => exact stopCamera_inv vp s
  | opStartRecording supports recCreate => exact startRecording_inv supports recCreate s hinv
  | opStopRecording => exact stopRecording_inv s hinv
  | opCaptureImage env => exact captureImage_inv env s hinv
  | opSwitchCamera h did =>
      show StreamInv (switchCamera h did s)
      unfold switchCamera
      split
      · exact startCamera_inv h (some did) s hinv
      · exact hinv
  | opToggleCamera h =>
      show StreamInv (toggleCamera h s).1
      unfold toggleCamera
      split
      · exact startCamera_inv h _ s hinv
      · exact hinv
  | opGetDevices e => exact getDevices_inv e s hinv
  | opDataAvailable n => exact handleDataAvailable_inv n s hinv
  | opRecorderStop url => exact handleStop_inv url s hinv
  | opClearRecordedVideo => exact clearRecordedVideo_inv s hinv

lemma runFrom_inv (ops : List Op) (s : CameraState) (hinv : StreamInv s) :
    StreamInv (runFrom s ops) := by
  induction ops generalizing s with
  | nil => exact hinv
  | cons op ops ih => exact ih (applyOp op s) (applyOp_inv op s hinv)

lemma initialState_inv : StreamInv initialState := by
  constructor <;> intro hr <;> simp [initialState] at hr

/-- C1: for every sequence of operations run on a fresh controller,
whenever `isStreaming` is false, `isRecording` is also false
(equivalently, `isRecording` implies `isStreaming` after every
transition). -/
theorem c1_not_streaming_not_recording (ops : List Op) :
    (run ops).isStreaming = false → (run ops).isRecording = false := by
  intro hs
  have hinv : StreamInv (run ops) := runFrom_inv ops initialState initialState_inv
  cases hr : (run ops).isRecording with
  | false => rfl
  | true => rw [hinv.1 hr] at hs; exact absurd hs (by simp)

/-- Witness for C1 at a concrete operation sequence. -/
theorem c1_not_streaming_not_recording_witness :
    (run [Op.opStopCamera true]).isStreaming = false ∧
    (run [Op.opStopCamera true]).isRecording = false :=
  ⟨by decide, c1_not_streaming_not_recording [Op.opStopCamera true] (by decide)⟩

/-- C5: `stopCamera` is idempotent; it stops every track of any active
stream, detaches the preview target, and clears both the streaming and
the recording flag; calling it when already Idle leaves the state
unchanged. -/
theorem c5_stopCamera_idempotent (vp : Bool) (s : CameraState) :
    (stopCamera vp (stopCamera vp s).1).1 = (stopCamera vp s).1 ∧
    (stopCamera vp s).1.isStreaming = false ∧
    (stopCamera vp s).1.isRecording = false ∧
    (stopCamera vp s).1.streamRef = none ∧
    (vp = true → (stopCamera vp s).1.videoSrcObject = none) ∧
    (∀ st, s.streamRef = some st →
        (stopCamera vp s).2 = st.tracks.map stopTrack ∧
        ∀ t ∈ (stopCamera vp s).2, t.stopped = true) ∧
    (s.streamRef = none → (stopCamera vp s).2 = [] ∧
        (s.isStreaming = false → s.isRecording = false →
         (vp = true → s.videoSrcObject = none) → (stopCamera vp s).1 = s)) := by
  refine ⟨?_, ?_, ?_, ?_, ?_, ?_, ?_⟩
  · unfold stopCamera; cases vp <;> simp
  · exact (stopCamera_fields vp s).1
  · exact (stopCamera_fields vp s).2.1
  · exact (stopCamera_fields vp s).2.2
  · intro hvp; subst hvp; unfold stopCamera; simp
  · intro st hst
    constructor
    · unfold stopCamera; rw [hst]
    · intro t ht
      unfold stopCamera at ht
      rw [hst] at ht
      rcases List.mem_map.mp (by simpa using ht) with ⟨u, -, hu⟩
      rw [← hu]; rfl
  · intro hnone
    constructor
    · unfold stopCamera; rw [hnone]
    · intro h1 h2 h3
      obtain ⟨iss, isr, err, dev, sel, rch, cim, rvu, sref, vso, rmt, rec⟩ := s
      unfold stopCamera
      cases vp with
      | false => simp_all
      | true => simp_all

/-- Witness for C5 at a concrete stream-holding state. -/
theorem c5_stopCamera_idempotent_witness :
    (stopCamera true exStreamingState).2 = [{ deviceId := some "A", stopped := true }] ∧
    (stopCamera true initialState).1 = initialState := by
  have h1 := (c5_stopCamera_idempotent true exStreamingState).2.2.2.2.2.1 exStream rfl
  have h2 := (c5_stopCamera_idempotent true initialState).2.2.2.2.2.2 rfl
  exact ⟨by rw [h1.1]; rfl, h2.2 rfl rfl (fun _ => rfl)⟩

/-- C7: calling `captureImage` when not streaming rejects the promise,
changes nothing in the state (in particular the captured-images
sequence), and derives no display handle. -/
theorem c7_capture_not_streaming (env : CaptureEnv) (s : CameraState)
    (h : s.isStreaming = false) :
    (captureImage env s).state = s ∧
    (captureImage env s).result = .error "Video not ready or streaming stopped" ∧
    (captureImage env s).urlsCreated = [] ∧
    (captureImage env s).state.capturedImages = s.capturedImages := by
  unfold captureImage
  rw [h]
  simp

/-- Witness for C7 on the fresh (non-streaming) state. -/
theorem c7_capture_not_streaming_witness :
    (captureImage exCapEnv initialState).state = initialState ∧
    (captureImage exCapEnv initialState).state.capturedImages = [] :=
  ⟨(c7_capture_not_streaming exCapEnv initialState rfl).1,
   (c7_capture_not_streaming exCapEnv initialState rfl).2.2.2⟩

/-- C10: when a recording pass finalizes with an empty collected-chunk
buffer, `recordedVideoUrl` is unchanged, no blob is built, and
`recordedChunks` becomes the empty sequence; a blob and a fresh URL are
produced exactly when at least one chunk was collected — and
`ondataavailable` drops zero-length chunks, so the buffer holds only
non-empty chunks. -/
theorem c10_onstop_empty_buffer (url : String) (s : CameraState) :
    (∀ buf, s.recorder = some buf → buf = [] →
        (handleStop url s).1.recordedVideoUrl = s.recordedVideoUrl ∧
        (handleStop url s).2 = none ∧
        (handleStop url s).1.recordedChunks = []) ∧
    (∀ buf, s.recorder = some buf → buf ≠ [] →
        (handleStop url s).1.recordedVideoUrl = some url ∧
        (handleStop url s).2 =
          some { chunks := buf, mimeType := s.recordedMimeType.getD "video/mp4" }) ∧
    handleDataAvailable 0 s = s := by
  refine ⟨?_, ?_, ?_⟩
  · intro buf hrec hempty
    subst hempty
    unfold handleStop
    rw [hrec]
    simp
  · intro buf hrec hne
    unfold handleStop
    rw [hrec]
    have : buf.length > 0 := List.length_pos.mpr hne
    simp [this]
  · unfold handleDataAvailable
    split <;> simp

lemma teardownTracks_error (s : CameraState) : (teardownTracks s).error = s.error := by
  unfold teardownTracks
  split <;> rfl

lemma bindPreview_error (vp : Bool) (st : Stream) (s : CameraState) :
    (bindPreview vp st s).error = s.error := by
  unfold bindPreview
  split <;> rfl

lemma setActualDevice_error (st : Stream) (s : CameraState) :
    (setActualDevice st s).error = s.error := by
  unfold setActualDevice
  split <;> first | rfl | (split <;> rfl)

lemma getDevices_ok_error (ds : List Device) (s : CameraState) :
    ((getDevices (.ok ds) s).1).error = s.error := by
  simp only [getDevices]
  split <;> rfl

lemma adoptStream_error_ok (h : Host) (st : Stream) (s : CameraState)
    (ds : List Device) (he : h.enum = .ok ds) :
    (adoptStream h st s).error = s.error := by
  unfold adoptStream
  rw [show ∀ t : CameraState, ({ t with isStreaming := true } : CameraState).error
        = t.error from fun _ => rfl]
  rw [setActualDevice_error, he, getDevices_ok_error, bindPreview_error]

/-- C2: when the first acquisition fails overconstrained, `startCamera`
retries exactly once, with the minimal `{video: any, audio: true}`
constraints, and never more (for every call the streaming capability is
consulted at most twice, and exactly once when the first outcome is not
overconstrained); a successful retry ends Streaming with no error
retained (given the device refresh succeeds), a failed retry sets the
combined message and stays Idle. -/
theorem c2_overconstrained_retry (h : Host) (did : Option String) (s : CameraState)
    (hoc : h.gum (getConstraints h.isMobile did) = .error .overconstrained)
    (hidle : s.isStreaming = false) :
    (startCamera h did s).2 = [getConstraints h.isMobile did, basicConstraints] ∧
    (∀ bs, h.gum basicConstraints = .ok bs →
        (startCamera h did s).1.isStreaming = true ∧
        ∀ ds, h.enum = .ok ds → (startCamera h did s).1.error = none) ∧
    (∀ e2, h.gum basicConstraints = .error e2 →
        (startCamera h did s).1.isStreaming = false ∧
        (startCamera h did s).1.error =
          some ("Failed to access camera: Camera constraints not supported. " ++
                "Trying with basic settings... Basic settings also failed.")) ∧
    (∀ (h2 : Host) (did2 : Option String) (s2 : CameraState),
        (startCamera h2 did2 s2).2.length ≤ 2 ∧
        (h2.gum (getConstraints h2.isMobile did2) ≠ .error .overconstrained →
          (startCamera h2 did2 s2).2 = [getConstraints h2.isMobile did2])) := by
  refine ⟨?_, ?_, ?_, ?_⟩
  · cases hb : h.gum basicConstraints with
    | ok bs => rw [startCamera_case_retry_ok h did s bs hoc hb]
    | error e2 => rw [startCamera_case_retry_err h did s e2 hoc hb]
  · intro bs hb
    rw [startCamera_case_retry_ok h did s bs hoc hb]
    refine ⟨adoptStream_isStreaming .., ?_⟩
    intro ds he
    rw [adoptStream_error_ok h bs _ ds he, teardownTracks_error]
  · intro e2 hb
    rw [startCamera_case_retry_err h did s e2 hoc hb]
    constructor
    · rw [show ∀ t : CameraState, ∀ m,
            ({ t with error := some m } : CameraState).isStreaming = t.isStreaming
            from fun _ _ => rfl]
      rw [(teardownTracks_fields _).1]
      exact hidle
    · rfl
  · intro h2 did2 s2
    cases hg2 : h2.gum (getConstraints h2.isMobile did2) with
    | ok st2 =>
        rw [startCamera_case_ok h2 did2 s2 st2 hg2]
        exact ⟨by simp, fun _ => rfl⟩
    | error e =>
        by_cases hoc2 : e = .overconstrained
        · subst hoc2
          refine ⟨?_, fun hne => (hne rfl).elim⟩
          cases hb2 : h2.gum basicConstraints with
          | ok bs2 => rw [startCamera_case_retry_ok h2 did2 s2 bs2 hg2 hb2]; simp
          | error e3 => rw [startCamera_case_retry_err h2 did2 s2 e3 hg2 hb2]; simp
        · rw [startCamera_case_err h2 did2 s2 e hg2 hoc2]
          exact ⟨by simp, fun _ => rfl⟩

/-- Witness for C2 at the two fallback hosts. -/
theorem c2_overconstrained_retry_witness :
    (startCamera exHostRetryOk none initialState).2 =
      [getConstraints false none, basicConstraints] ∧
    (startCamera exHostRetryOk none initialState).1.isStreaming = true ∧
    (startCamera exHostRetryOk none initialState).1.error = none ∧
    (startCamera exHostRetryFail none initialState).1.isStreaming = false := by
  have hA := c2_overconstrained_retry exHostRetryOk none initialState rfl rfl
  have hB := c2_overconstrained_retry exHostRetryFail none initialState rfl rfl
  have hAok := hA.2.1 exStream rfl
  exact ⟨hA.1, hAok.1, hAok.2 _ rfl, (hB.2.2.1 .overconstrained rfl).1⟩

/-- C3 counterexample: when no format in the preference list is
supported, `startRecording` does NOT leave the recorded-chunk sequence
unchanged — the sequence is cleared on entry, before the probe, so a
previously recorded `[5]` becomes `[]`. -/
theorem c3_unsupported_format_cex :
    exRecordedState.recordedChunks = [5] ∧
    exRecordedState.streamRef.isSome = true ∧
    exRecordedState.isRecording = false ∧
    mimeTypes.find? noSupport = none ∧
    (startRecording noSupport (.ok ()) exRecordedState).recordedChunks = [] := by
  refine ⟨by decide, by decide, by decide, by decide, by decide⟩

/-- C3 (amended): when `startRecording` finds no supported format it
sets only the recording-not-supported message and resets the
recorded-chunk sequence to empty (the sequence is cleared on entry,
before probing); recording does not start, and everything else —
`recordedVideoUrl`, the negotiated-format field, the recorder — is
unchanged. -/
theorem c3_unsupported_format (supports : String → Bool)
    (recCreate : Except String Unit) (s : CameraState)
    (hstream : s.streamRef.isSome = true) (hrec : s.isRecording = false)
    (hsup : mimeTypes.find? supports = none) :
    startRecording supports recCreate s =
      { s with recordedChunks := [], error := some unsupportedRecordingMessage } := by
  unfold startRecording
  have hcond : (s.streamRef.isNone || s.isRecording) = false := by
    rw [hrec]; cases hs : s.streamRef <;> simp_all
  rw [hcond, hsup]
  simp

/-- Witness for C3 (amended) at the recorded fixture state. -/
theorem c3_unsupported_format_witness :
    startRecording noSupport (.ok ()) exRecordedState =
      { exRecordedState with
          recordedChunks := []
          error := some unsupportedRecordingMessage } :=
  c3_unsupported_format noSupport (.ok ()) exRecordedState (by decide) (by decide) (by decide)

/-- C6 counterexample: two captures within the same wall-clock
millisecond receive the same `Date.now()` identifier, so the ids of the
captured-images sequence are neither unique nor strictly increasing. -/
theorem c6_capture_ids_cex :
    exCapturedTwice.capturedImages.map CapturedImage.id = [7, 7] ∧ ¬ (7 < 7) :=
  ⟨by decide, by decide⟩

/-- C6 (amended): each appended entry's id is the wall-clock millisecond
reading at capture; the ids are strictly increasing (hence unique)
provided every capture happens at a clock reading strictly greater than
every id already in the sequence — captures sharing a millisecond
receive equal ids. -/
theorem c6_capture_ids_monotone (env : CaptureEnv) (s : CameraState)
    (hs : s.isStreaming = true) (hv : env.videoPresent = true)
    (hc : env.canvasError = none) (hb : env.blobOk = true)
    (hmono : s.capturedImages.Pairwise (fun a b => a.id < b.id))
    (hnew : ∀ img ∈ s.capturedImages, img.id < env.nowMs) :
    (captureImage env s).state.capturedImages =
      s.capturedImages ++ [{ id := env.nowMs, url := env.url, timestamp := env.timestampIso }] ∧
    ((captureImage env s).state.capturedImages).Pairwise (fun a b => a.id < b.id) := by
  have happ : (captureImage env s).state.capturedImages =
      s.capturedImages ++
        [{ id := env.nowMs, url := env.url, timestamp := env.timestampIso }] := by
    unfold captureImage
    rw [hv, hs, hc, hb]
    simp
  refine ⟨happ, ?_⟩
  rw [happ]
  refine List.pairwise_append.mpr ⟨hmono, by simp, ?_⟩
  intro a ha b hb'
  rw [List.mem_singleton] at hb'
  subst hb'
  exact hnew a ha

/-- Witness for C6 (amended): one capture at clock 7 on the streaming
fixture yields the singleton sequence with id 7. -/
theorem c6_capture_ids_monotone_witness :
    (captureImage exCapEnv exRunStreaming).state.capturedImages =
      exRunStreaming.capturedImages ++ [{ id := 7, url := "u", timestamp := "t" }] ∧
    ((captureImage exCapEnv exRunStreaming).state.capturedImages).Pairwise
      (fun a b => a.id < b.id) :=
  c6_capture_ids_monotone exCapEnv exRunStreaming (by decide) rfl rfl rfl
    (by rw [show exRunStreaming.capturedImages = [] from by decide]; exact List.Pairwise.nil)
    (by rw [show exRunStreaming.capturedImages = [] from by decide]; intro img h; cases h)

/-- Witness for C10 at concrete buffers. -/
theorem c10_onstop_empty_buffer_witness :
    (handleStop "u" exEmptyBufferState).1.recordedVideoUrl = some "old" ∧
    (handleStop "u" exFullBufferState).1.recordedVideoUrl = some "u" := by
  have h1 := (c10_onstop_empty_buffer "u" exEmptyBufferState).1 [] rfl rfl
  have h2 := (c10_onstop_empty_buffer "u" exFullBufferState).2.1 [3] rfl (by simp)
  exact ⟨h1.1, h2.1⟩

lemma toggleCamera_snd (h : Host) (s : CameraState) :
    (toggleCamera h s).2 = toggleTarget h.isMobile s := by
  unfold toggleCamera
  cases hd : toggleTarget h.isMobile s <;> simp

lemma toggleCamera_none (h : Host) (s : CameraState)
    (hd : toggleTarget h.isMobile s = none) : toggleCamera h s = (s, none) := by
  unfold toggleCamera
  rw [hd]

/-- C8: `toggleCamera` is a no-op with fewer than two known devices;
on the front/back two-device example with A selected it decides B (on
mobile and not); when the mobile classification yields no distinct
target, or outside mobile, it advances cyclically to the next device in
list order with wrap-around, switching only if that device differs from
the current selection; and a decided target is started via
`startCamera`. -/
theorem c8_toggleCamera (h : Host) (s : CameraState) :
    (s.devices.length ≤ 1 → toggleCamera h s = (s, none)) ∧
    (toggleTarget true exToggleState = some "B" ∧
     toggleTarget false exToggleState = some "B" ∧
     (toggleCamera h exToggleState).2 = some "B") ∧
    (h.isMobile = false → 2 ≤ s.devices.length →
        (toggleCamera h s).2 = cyclicTarget s) ∧
    (h.isMobile = true → 2 ≤ s.devices.length → mobileTarget s = none →
        (toggleCamera h s).2 = cyclicTarget s) ∧
    (∀ i d, findSelectedIdx s.devices s.selectedDeviceId = some i →
        s.devices.get? ((i + 1) % s.devices.length) = some d →
        cyclicTarget s =
          if some d.deviceId ≠ s.selectedDeviceId then some d.deviceId else none) ∧
    (∀ id, toggleTarget h.isMobile s = some id →
        toggleCamera h s = ((startCamera h (some id) s).1, some id)) := by
  refine ⟨?_, ⟨by decide, by decide, ?_⟩, ?_, ?_, ?_, ?_⟩
  · intro hle
    exact toggleCamera_none h s (by unfold toggleTarget; rw [if_pos hle])
  · rw [toggleCamera_snd]
    cases hm : h.isMobile
    · decide
    · decide
  · intro hm hlen
    rw [toggleCamera_snd, hm]
    unfold toggleTarget
    rw [if_neg (by omega)]
    simp
  · intro hm hlen hmt
    rw [toggleCamera_snd, hm]
    unfold toggleTarget
    rw [if_neg (by omega), hmt]
    simp
  · intro i d hidx hget
    simp only [cyclicTarget, hidx, nextIndex]
    rw [hget]
  · intro id hid
    unfold toggleCamera
    rw [hid]

/-- Witness for C8: the decided device on the front/back example, and
the cyclic fallback on the unlabeled two-device fixture under a mobile
host. -/
theorem c8_toggleCamera_witness :
    (toggleCamera exHostGood exToggleState).2 = some "B" ∧
    (toggleCamera exHostMobile exUnlabeledState).2 = cyclicTarget exUnlabeledState ∧
    cyclicTarget exUnlabeledState = some "D" := by
  refine ⟨(c8_toggleCamera exHostGood exToggleState).2.1.2.2, ?_, ?_⟩
  · exact (c8_toggleCamera exHostMobile exUnlabeledState).2.2.2.1 rfl (by decide) (by decide)
  · have := (c8_toggleCamera exHostMobile exUnlabeledState).2.2.2.2.1 0 exDeviceD
      (by decide) (by decide)
    rw [this]
    decide

/-- C9: `getCurrentCameraType` is a pure function of the selection and
the device list: 'unknown' with no selection, no devices, a selected
device absent from the list, or an empty label; otherwise 'front' when
the lower-cased label contains a front keyword, 'back' when it contains
a back keyword and no front keyword, 'unknown' when no keyword matches
— in particular "Integrated Webcam" yields 'unknown'. -/
theorem c9_currentCameraType (s : CameraState) :
    (s.selectedDeviceId = none → getCurrentCameraType s = "unknown") ∧
    (s.devices = [] → getCurrentCameraType s = "unknown") ∧
    (∀ sel, s.selectedDeviceId = some sel →
        s.devices.find? (fun d => d.deviceId == sel) = none →
        getCurrentCameraType s = "unknown") ∧
    (∀ sel d, s.selectedDeviceId = some sel →
        s.devices.find? (fun d => d.deviceId == sel) = some d →
        (d.label = "" → getCurrentCameraType s = "unknown") ∧
        (d.label ≠ "" → hasKeyword frontCameraKeywords (lowerString d.label) = true →
            getCurrentCameraType s = "front") ∧
        (d.label ≠ "" → hasKeyword frontCameraKeywords (lowerString d.label) = false →
            hasKeyword backCameraKeywords (lowerString d.label) = true →
            getCurrentCameraType s = "back") ∧
        (hasKeyword frontCameraKeywords (lowerString d.label) = false →
            hasKeyword backCameraKeywords (lowerString d.label) = false →
            getCurrentCameraType s = "unknown")) ∧
    getCurrentCameraType exWebcamState = "unknown" := by
  refine ⟨?_, ?_, ?_, ?_, by decide⟩
  · intro hsel
    simp [getCurrentCameraType, hsel]
  · intro hdev
    unfold getCurrentCameraType
    cases s.selectedDeviceId <;> simp [hdev]
  · intro sel hsel hfind
    simp only [getCurrentCameraType, hsel, hfind]
    split <;> rfl
  · intro sel d hsel hfind
    have hmem : d ∈ s.devices := List.mem_of_find?_eq_some hfind
    have hlen : (s.devices.length == 0) = false := by
      rw [beq_eq_false_iff_ne]
      simp only [ne_eq, List.length_eq_zero]
      exact List.ne_nil_of_mem hmem
    have hcore : getCurrentCameraType s =
        (if d.label == "" then "unknown"
         else if hasKeyword frontCameraKeywords (lowerString d.label) then "front"
         else if hasKeyword backCameraKeywords (lowerString d.label) then "back"
         else "unknown") := by
      simp only [getCurrentCameraType, hsel, hlen, hfind]
      rfl
    refine ⟨?_, ?_, ?_, ?_⟩
    · intro hlab
      rw [hcore, hlab]
      rfl
    · intro hlab hfr
      rw [hcore, if_neg (by simpa using hlab), hfr]
      rfl
    · intro hlab hfr hbk
      rw [hcore, if_neg (by simpa using hlab), hfr, hbk]
      rfl
    · intro hfr hbk
      rw [hcore]
      by_cases hlab : d.label = ""
      · rw [if_pos (by simpa using hlab)]
      · rw [if_neg (by simpa using hlab), hfr, hbk]
        rfl

/-- Witness for C9: the front-labelled fixture classifies 'front', the
fresh state 'unknown'. -/
theorem c9_currentCameraType_witness :
    getCurrentCameraType exToggleState = "front" ∧
    getCurrentCameraType initialState = "unknown" := by
  have hfr := ((c9_currentCameraType exToggleState).2.2.2.1 "A" exDeviceA rfl
      (by decide)).2.1 (by decide) (by decide)
  exact ⟨hfr, (c9_currentCameraType initialState).1 rfl⟩

/-! ### The device-membership invariant -/

lemma deviceInv_of_fields (s s' : CameraState) (hd : s'.devices = s.devices)
    (hs : s'.selectedDeviceId = s.selectedDeviceId) (hinv : DeviceInv s) :
    DeviceInv s' := by
  intro hne
  rw [hd, hs]
  exact hinv (hd ▸ hne)

lemma setActualDevice_eq (st : Stream) (s : CameraState) :
    setActualDevice st s =
      (match streamTrackId st with
       | some id => { s with selectedDeviceId := some id }
       | none => s) := by
  unfold setActualDevice streamTrackId
  cases st.tracks with
  | nil => rfl
  | cons t ts => cases t.deviceId <;> rfl

lemma getDevices_ok_devices (ds : List Device) (s : CameraState) :
    ((getDevices (.ok ds) s).1).devices = filterVideoInput ds := by
  simp only [getDevices]
  split <;> rfl

lemma getDevices_devsel (e : Except String (List Device)) (s s' : CameraState)
    (hsel : s'.selectedDeviceId = s.selectedDeviceId)
    (hdev : s'.devices = s.devices) :
    ((getDevices e s').1).devices = ((getDevices e s).1).devices ∧
    ((getDevices e s').1).selectedDeviceId = ((getDevices e s).1).selectedDeviceId := by
  cases e with
  | error m => exact ⟨hdev, hsel⟩
  | ok ds =>
      simp only [getDevices]
      rw [hsel]
      cases s.selectedDeviceId <;> cases filterVideoInput ds <;> simp [hsel]

lemma getDevices_ok_devinv (ds : List Device) (s : CameraState)
    (hok : EnumOk ds s.selectedDeviceId) :
    DeviceInv ((getDevices (.ok ds) s).1) := by
  cases hsel : s.selectedDeviceId with
  | none =>
      cases hl : filterVideoInput ds with
      | nil =>
          intro hne
          rw [getDevices_ok_devices, hl] at hne
          exact absurd rfl hne
      | cons d rest =>
          intro hne
          refine ⟨d, ?_, ?_⟩
          · rw [getDevices_ok_devices, hl]; exact List.mem_cons_self d rest
          · simp only [getDevices, hsel, hl]
  | some sel =>
      intro hne
      rw [getDevices_ok_devices] at hne
      have hfields : ((getDevices (.ok ds) s).1).selectedDeviceId = some sel := by
        simp only [getDevices, hsel]
      rcases hok with h0 | h0 | h0
      · rw [hsel] at h0; cases h0
      · exact absurd h0 hne
      · obtain ⟨d, hd, hdid⟩ := h0
        refine ⟨d, ?_, ?_⟩
        · rw [getDevices_ok_devices]; exact hd
        · rw [hfields, ← hsel]; exact hdid

lemma adoptStream_devsel (h : Host) (st : Stream) (s : CameraState) :
    (adoptStream h st s).devices = ((getDevices h.enum s).1).devices ∧
    (adoptStream h st s).selectedDeviceId =
      (match streamTrackId st with
       | some tid => some tid
       | none => ((getDevices h.enum s).1).selectedDeviceId) := by
  simp only [adoptStream]
  rw [setActualDevice_eq]
  have hbind := bindPreview_fields h.videoPresent st
      ({ s with streamRef := some st } : CameraState)
  have hgd := getDevices_devsel h.enum s
      (bindPreview h.videoPresent st { s with streamRef := some st })
      hbind.2.2.2.2.2 hbind.2.2.2.2.1
  cases streamTrackId st with
  | some tid => exact ⟨hgd.1, rfl⟩
  | none => exact ⟨hgd.1, hgd.2⟩

lemma getDevices_err_fields (m : String) (s : CameraState) :
    ((getDevices (.error m) s).1).devices = s.devices ∧
    ((getDevices (.error m) s).1).selectedDeviceId = s.selectedDeviceId :=
  ⟨rfl, rfl⟩

lemma adoptStream_devinv (h : Host) (st : Stream) (s : CameraState)
    (hinv : DeviceInv s) (hok : AdoptOk h st s.devices s.selectedDeviceId) :
    DeviceInv (adoptStream h st s) := by
  obtain ⟨hdev, hsel⟩ := adoptStream_devsel h st s
  intro hne
  rw [hdev] at hne
  rw [hdev, hsel]
  unfold AdoptOk at hok
  cases htid : streamTrackId st with
  | some tid =>
      rw [htid] at hok
      cases he : h.enum with
      | ok ds =>
          rw [he, getDevices_ok_devices] at hne
          rcases hok.1 ds he with hempty | ⟨d, hd, hdid⟩
          · exact absurd hempty hne
          · refine ⟨d, ?_, ?_⟩
            · rw [getDevices_ok_devices]; exact hd
            · rw [hdid]
      | error e =>
          rw [he, (getDevices_err_fields e s).1] at hne
          rcases hok.2 e he with hempty | ⟨d, hd, hdid⟩
          · exact absurd hempty hne
          · refine ⟨d, ?_, ?_⟩
            · rw [(getDevices_err_fields e s).1]; exact hd
            · rw [hdid]
  | none =>
      rw [htid] at hok
      cases he : h.enum with
      | ok ds =>
          rw [he] at hne
          exact getDevices_ok_devinv ds s (hok ds he) hne
      | error e =>
          rw [he, (getDevices_err_fields e s).1] at hne
          obtain ⟨d, hd, hdid⟩ := hinv hne
          refine ⟨d, ?_, ?_⟩
          · rw [(getDevices_err_fields e s).1]; exact hd
          · rw [(getDevices_err_fields e s).2]; exact hdid

lemma startCamera_devinv (h : Host) (did : Option String) (s : CameraState)
    (hinv : DeviceInv s) (hok : HostAdoptOk h did s.devices s.selectedDeviceId) :
    DeviceInv (startCamera h did s).1 := by
  have htd := teardownTracks_fields ({ s with error := none } : CameraState)
  have hdev0 : (teardownTracks { s with error := none }).devices = s.devices :=
    htd.2.2.2.1
  have hsel0 : (teardownTracks { s with error := none }).selectedDeviceId
      = s.selectedDeviceId := htd.2.2.2.2
  have hs0 : DeviceInv (teardownTracks { s with error := none }) :=
    deviceInv_of_fields s _ hdev0 hsel0 hinv
  cases hg : h.gum (getConstraints h.isMobile did) with
  | ok st =>
      rw [startCamera_case_ok h did s st hg]
      apply adoptStream_devinv h st _ hs0
      rw [hdev0, hsel0]
      exact hok.1 st hg
  | error e =>
      by_cases hoc : e = .overconstrained
      · subst hoc
        cases hb : h.gum basicConstraints with
        | ok bs =>
            rw [startCamera_case_retry_ok h did s bs hg hb]
            apply adoptStream_devinv h bs _ hs0
            rw [hdev0, hsel0]
            exact hok.2 bs hg hb
        | error e2 =>
            rw [startCamera_case_retry_err h did s e2 hg hb]
            exact deviceInv_of_fields s _ hdev0 hsel0 hinv
      · rw [startCamera_case_err h did s e hg hoc]
        exact deviceInv_of_fields s _ hdev0 hsel0 hinv

lemma stopCamera_devsel (vp : Bool) (s : CameraState) :
    (stopCamera vp s).1.devices = s.devices ∧
    (stopCamera vp s).1.selectedDeviceId = s.selectedDeviceId := by
  unfold stopCamera
  cases vp <;> simp

lemma startRecording_devsel (supports : String → Bool) (recCreate : Except String Unit)
    (s : CameraState) :
    (startRecording supports recCreate s).devices = s.devices ∧
    (startRecording supports recCreate s).selectedDeviceId = s.selectedDeviceId := by
  unfold startRecording
  split
  · exact ⟨rfl, rfl⟩
  · split
    · exact ⟨rfl, rfl⟩
    · split
      · exact ⟨rfl, rfl⟩
      · exact ⟨rfl, rfl⟩

lemma stopRecording_devsel (s : CameraState) :
    (stopRecording s).devices = s.devices ∧
    (stopRecording s).selectedDeviceId = s.selectedDeviceId := by
  unfold stopRecording
  split <;> exact ⟨rfl, rfl⟩

lemma captureImage_devsel (env : CaptureEnv) (s : CameraState) :
    (captureImage env s).state.devices = s.devices ∧
    (captureImage env s).state.selectedDeviceId = s.selectedDeviceId := by
  unfold captureImage
  split
  · exact ⟨rfl, rfl⟩
  · split
    · exact ⟨rfl, rfl⟩
    · split
      · exact ⟨rfl, rfl⟩
      · exact ⟨rfl, rfl⟩

lemma handleDataAvailable_devsel (n : Nat) (s : CameraState) :
    (handleDataAvailable n s).devices = s.devices ∧
    (handleDataAvailable n s).selectedDeviceId = s.selectedDeviceId := by
  unfold handleDataAvailable
  split
  · split <;> exact ⟨rfl, rfl⟩
  · exact ⟨rfl, rfl⟩

lemma handleStop_devsel (url : String) (s : CameraState) :
    (handleStop url s).1.devices = s.devices ∧
    (handleStop url s).1.selectedDeviceId = s.selectedDeviceId := by
  unfold handleStop
  split
  · split <;> exact ⟨rfl, rfl⟩
  · exact ⟨rfl, rfl⟩

lemma clearRecordedVideo_devsel (s : CameraState) :
    (clearRecordedVideo s).devices = s.devices ∧
    (clearRecordedVideo s).selectedDeviceId = s.selectedDeviceId := by
  unfold clearRecordedVideo
  split <;> exact ⟨rfl, rfl⟩

lemma applyOp_devinv (op : Op) (s : CameraState) (hinv : DeviceInv s)
    (hok : OpDevOk op s) : DeviceInv (applyOp op s) := by
  cases op with
  | opStartCamera h did => exact startCamera_devinv h did s hinv hok
  | opStartCameraDefault h => exact startCamera_devinv h s.selectedDeviceId s hinv hok
  | opStopCamera vp =>
      exact deviceInv_of_fields s _ (stopCamera_devsel vp s).1 (stopCamera_devsel vp s).2 hinv
  | opStartRecording supports recCreate =>
      exact deviceInv_of_fields s _ (startRecording_devsel supports recCreate s).1
        (startRecording_devsel supports recCreate s).2 hinv
  | opStopRecording =>
      exact deviceInv_of_fields s _ (stopRecording_devsel s).1 (stopRecording_devsel s).2 hinv
  | opCaptureImage env =>
      exact deviceInv_of_fields s _ (captureImage_devsel env s).1
        (captureImage_devsel env s).2 hinv
  | opSwitchCamera h did =>
      show DeviceInv (switchCamera h did s)
      unfold switchCamera
      split
      · exact startCamera_devinv h (some did) s hinv hok
      · exact hinv
  | opToggleCamera h =>
      show DeviceInv (toggleCamera h s).1
      unfold toggleCamera
      cases hd : toggleTarget h.isMobile s with
      | some id => exact startCamera_devinv h (some id) s hinv (hok id hd)
      | none => exact hinv
  | opGetDevices e =>
      cases e with
      | ok ds => exact getDevices_ok_devinv ds s hok
      | error m => exact deviceInv_of_fields s _ rfl rfl hinv
  | opDataAvailable n =>
      exact deviceInv_of_fields s _ (handleDataAvailable_devsel n s).1
        (handleDataAvailable_devsel n s).2 hinv
  | opRecorderStop url =>
      exact deviceInv_of_fields s _ (handleStop_devsel url s).1
        (handleStop_devsel url s).2 hinv
  | opClearRecordedVideo =>
      exact deviceInv_of_fields s _ (clearRecordedVideo_devsel s).1
        (clearRecordedVideo_devsel s).2 hinv

/-- C4 counterexample: two enumerations whose result changes (device A
replaced by device B) leave the previously selected id `A` outside the
new, non-empty device list — the membership invariant does not hold
after every operation. -/
theorem c4_selected_in_devices_cex :
    (run [.opGetDevices (.ok [exDeviceA]), .opGetDevices (.ok [exDeviceB])]).devices.length = 1 ∧
    (run [.opGetDevices (.ok [exDeviceA]),
          .opGetDevices (.ok [exDeviceB])]).selectedDeviceId = some "A" ∧
    ((run [.opGetDevices (.ok [exDeviceA]),
           .opGetDevices (.ok [exDeviceB])]).devices.any
        (fun d => d.deviceId == "A")) = false :=
  ⟨by decide, by decide, by decide⟩

/-- C4 (amended): the membership invariant holds initially and is
preserved by every operation provided the host reports consistent data:
every enumeration either happens with nothing selected, returns no
video-input device, or still lists the selected id; and every adopted
stream whose live track reports a device id has that id in the device
list the adoption ends with (unless that list is empty). -/
theorem c4_selected_in_devices (op : Op) (s : CameraState)
    (hinv : DeviceInv s) (hok : OpDevOk op s) :
    DeviceInv initialState ∧ DeviceInv (applyOp op s) :=
  ⟨fun hne => absurd rfl hne, applyOp_devinv op s hinv hok⟩

/-- Witness for C4 (amended): a consistent enumeration on the fresh
state selects device A, and A is in the resulting list. -/
theorem c4_selected_in_devices_witness :
    DeviceInv (applyOp (.opGetDevices (.ok [exDeviceA])) initialState) ∧
    (applyOp (.opGetDevices (.ok [exDeviceA])) initialState).selectedDeviceId = some "A" :=
  ⟨(c4_selected_in_devices (.opGetDevices (.ok [exDeviceA])) initialState
      (fun hne => absurd rfl hne) (by unfold OpDevOk EnumOk; exact Or.inl rfl)).2,
   by decide⟩

end UseCamera
